import Mathlib

/-!
Verification development for the motion-detecting recording controller
(`src/main.py`).  The Python program is shallowly embedded: times are exact
rationals, frames are lists of pixel intensities, the open output file is
represented by the list of encoded units written to it so far, and the
driver loop body is a pure state-transition function executed once per
cycle.
-/

namespace MotionRecording

/-! ## Parameters (src/main.py lines 13-21, 86) -/

/-- `PIXEL_DIFF_THRESHOLD = 25` : minimum pixel intensity difference to
count as changed. -/
def PIXEL_DIFF_THRESHOLD : ℤ := 25

/-- `SENSITIVITY = 300` : number of changed pixels required to trigger
motion. -/
def SENSITIVITY : ℕ := 300

/-- `MOTION_BUFFER_DURATION = 1.0` : minimum duration (seconds) to keep the
motion-detected state. -/
def MOTION_BUFFER_DURATION : ℚ := 1

/-- `record_duration_after_motion = 10` seconds. -/
def record_duration_after_motion : ℚ := 10

/-- `pre_motion_recording_duration = 10` seconds. -/
def pre_motion_recording_duration : ℚ := 10

/-- `cooldown_duration = 5` seconds. -/
def cooldown_duration : ℚ := 5

/-- `frame_interval = 0.1` (line 86, assuming 10 fps). -/
def frame_interval : ℚ := 1 / 10

/-! ## int16 arithmetic (line 117)

`np.abs(motion_frame.astype(np.int16) - last_frame.astype(np.int16))`:
every intermediate value lives in numpy's int16, which wraps around
modulo 2^16 into the signed range [-2^15, 2^15).  We model that wrapping
explicitly. -/

/-- Reduction of an integer into the signed 16-bit range, i.e. the value an
int16 cell holds after storing `x`. -/
def int16ofInt (x : ℤ) : ℤ := (x + 2 ^ 15) % 2 ^ 16 - 2 ^ 15

/-- The per-pixel value that line 117 computes for intensities `a` and `b`:
both frames are cast to int16, subtracted in int16, and `np.abs` is taken in
int16. -/
def pixelDelta (a b : ℕ) : ℤ :=
  int16ofInt |int16ofInt (int16ofInt (a : ℤ) - int16ofInt (b : ℤ))|

/-- Line 118: `changed_pixels = np.sum(frame_delta > PIXEL_DIFF_THRESHOLD)`,
the number of pixel positions whose int16 absolute difference exceeds the
threshold. -/
def changed_pixels (cur last : List ℕ) : ℕ :=
  (List.zipWith pixelDelta cur last).countP (fun d => decide (PIXEL_DIFF_THRESHOLD < d))

/-! ## CircularBufferOutput (src/main.py lines 32-65)

An encoded unit is opaque bytes produced by the H264 encoder; we abstract
it as an identifier together with the capture timestamp of the frame it
encodes (the program never inspects either).  The open file is represented
by the list of units written to it (`none` = no open file). -/

/-- One encoder output unit (the `frame` argument of `outputframe`). -/
structure EncodedFrame where
  payload : ℕ
  ts : ℚ
deriving DecidableEq

/-- State of `CircularBufferOutput` (lines 33-40). -/
structure CircularBufferOutput where
  max_duration : ℚ
  frame_interval : ℚ
  max_frames : ℕ
  frames : List (EncodedFrame × Bool)
  recording : Bool
  file : Option (List EncodedFrame)
deriving DecidableEq

/-- `__init__(max_duration, frame_interval)` (lines 33-40):
`max_frames = int(max_duration / frame_interval)`, empty deque, not
recording, no open file.  Python's `int()` truncates toward zero; both
arguments are positive wherever the program constructs this object, so
truncation coincides with the floor used here. -/
def CircularBufferOutput.init (max_duration frame_interval : ℚ) : CircularBufferOutput :=
  { max_duration := max_duration
    frame_interval := frame_interval
    max_frames := ⌊max_duration / frame_interval⌋.toNat
    frames := []
    recording := false
    file := none }

/-- `outputframe(frame, keyframe, timestamp)` (lines 42-47): append
`(frame, keyframe)` to the deque; if the deque now exceeds `max_frames`,
pop one element from the left; if `recording` and the file is open, write
the unit to the file.  The `timestamp` argument is ignored by the body. -/
def CircularBufferOutput.outputframe (self : CircularBufferOutput) (frame : EncodedFrame)
    (keyframe : Bool) (timestamp : Option ℚ) : CircularBufferOutput :=
  let fs0 := self.frames ++ [(frame, keyframe)]
  let fs1 := if self.max_frames < fs0.length then fs0.tail else fs0
  let fl := if self.recording then
      (match self.file with
        | some c => some (c ++ [frame])
        | none => none)
    else self.file
  { self with frames := fs1, file := fl }

/-- The `for i, (frame, keyframe) in enumerate(self.frames): if keyframe:
last_keyframe_index = i` loop of lines 52-55, threading the running index
`i` and the accumulator. -/
def lastKeyframeAux : ℕ → ℕ → List (EncodedFrame × Bool) → ℕ
  | _, acc, [] => acc
  | i, acc, p :: rest => lastKeyframeAux (i + 1) (if p.2 then i else acc) rest

/-- `start_recording(file_path)` (lines 49-59): open the file (its content
starts empty), find the last keyframe index in the buffer (0 when no
keyframe is present), write every buffered unit from that index to the end
in order, and set `recording = True`.  The path only names the file on
disk and is not modelled. -/
def CircularBufferOutput.start_recording (self : CircularBufferOutput) : CircularBufferOutput :=
  let last_keyframe_index := lastKeyframeAux 0 0 self.frames
  { self with
    file := some ((self.frames.drop last_keyframe_index).map Prod.fst)
    recording := true }

/-- `stop_recording()` (lines 61-65): close and drop the file handle, clear
the recording flag. -/
def CircularBufferOutput.stop_recording (self : CircularBufferOutput) : CircularBufferOutput :=
  { self with file := none, recording := false }

/-! ## Driver loop (src/main.py lines 93-158)

Per-cycle state of the loop's local variables.  `motion_end_time` is `None`
in the source until a recording starts and is only read while `recording`
is true (the short-circuit on line 145), so modelling the unset value as 0
does not change any behaviour.  `last_frame` models the
`'last_frame' not in locals()` sentinel of line 113 as an `Option`. -/

structure LoopState where
  last_frame : Option (List ℕ)
  motion_detected : Bool
  recording : Bool
  motion_end_time : ℚ
  motion_buffer_end_time : ℚ
  cooldown_end_time : ℚ
deriving DecidableEq

/-- Initial values (lines 93-97, 113). -/
def initState : LoopState :=
  { last_frame := none
    motion_detected := false
    recording := false
    motion_end_time := 0
    motion_buffer_end_time := 0
    cooldown_end_time := 0 }

/-- Lines 120-133: the cooldown check and the debounce of the raw
changed-pixel count into `motion_detected`. -/
def debounceStep (s : LoopState) (changed : ℕ) (current_time : ℚ) : LoopState :=
  if current_time < s.cooldown_end_time then
    { s with motion_detected := false }
  else if SENSITIVITY < changed then
    { s with motion_buffer_end_time := current_time + MOTION_BUFFER_DURATION
             motion_detected := true }
  else if s.motion_buffer_end_time < current_time then
    { s with motion_detected := false }
  else s

/-- Lines 136-142: start recording when motion is detected and no recording
is active; sets `recording = True`, opens the sink, and sets
`motion_end_time = current_time + record_duration_after_motion`. -/
def startStep (s : LoopState) (current_time : ℚ) : LoopState :=
  if s.motion_detected ∧ s.recording = false then
    { s with recording := true
             motion_end_time := current_time + record_duration_after_motion }
  else s

/-- Lines 144-151: stop recording once `current_time > motion_end_time`
while recording; sets `cooldown_end_time = current_time + cooldown_duration`. -/
def stopStep (s : LoopState) (current_time : ℚ) : LoopState :=
  if s.recording ∧ s.motion_end_time < current_time then
    { s with recording := false
             cooldown_end_time := current_time + cooldown_duration }
  else s

/-- One iteration of the driver loop's control logic (lines 120-151), given
the raw changed-pixel count and the current time. -/
def cycle (s : LoopState) (changed : ℕ) (now : ℚ) : LoopState :=
  stopStep (startStep (debounceStep s changed now) now) now

/-- Run the loop from the initial state over a list of `(current_time,
changed_pixels)` inputs, one cycle per element. -/
def runCycles (inputs : List (ℚ × ℕ)) : LoopState :=
  inputs.foldl (fun s p => cycle s p.2 p.1) initState

/-- One loop iteration including the sink-open of line 141 as a fallible
operation.  The source sets `recording = True` (line 137) *before* calling
`circular_output.start_recording` (line 141); an `OSError` raised by
`open(file_path, 'wb')` is caught by no handler (the `except` on line 160
only catches `KeyboardInterrupt`), so the loop terminates with the local
variables as they stand at the raise point — returned here as
`Except.error`. -/
def cycleE (openFails : Bool) (s : LoopState) (changed : ℕ) (now : ℚ) :
    Except LoopState LoopState :=
  let s1 := debounceStep s changed now
  if s1.motion_detected ∧ s1.recording = false then
    let s2 := { s1 with recording := true }
    if openFails then Except.error s2
    else Except.ok (stopStep { s2 with
      motion_end_time := now + record_duration_after_motion } now)
  else Except.ok (stopStep s1 now)

/-- One full iteration including frame differencing (lines 112-118, 155):
seed `last_frame` with the incoming frame when unset, compute the changed
count, run the control logic, store the frame as the new `last_frame`. -/
def fullCycle (s : LoopState) (frame : List ℕ) (now : ℚ) : LoopState :=
  let last := s.last_frame.getD frame
  let changed := changed_pixels frame last
  { cycle s changed now with last_frame := some frame }

/-- Iterate `outputframe` over a list of `(frame, keyframe, timestamp)`
arguments, one call per element. -/
def pushAll (b : CircularBufferOutput) (L : List (EncodedFrame × Bool × Option ℚ)) :
    CircularBufferOutput :=
  L.foldl (fun acc u => acc.outputframe u.1 u.2.1 u.2.2) b

/-- The cycle times of an input sequence never decrease. -/
def timesNondecreasing (inputs : List (ℚ × ℕ)) : Prop :=
  (inputs.map Prod.fst).Pairwise (· ≤ ·)

/-- Claim C6 as stated, over driver-loop traces: for every input sequence
of `(current_time, changed_pixels)` cycles with nondecreasing times,
(1) if cycle `i` has a raw count above `SENSITIVITY` and cycle `j ≥ i`
happens within `MOTION_BUFFER_DURATION` of cycle `i` and outside the
cooldown window in force at cycle `j`, then `motion_detected` is true
after cycle `j`; and (2) on any cycle whose time is inside the cooldown
window, `motion_detected` is false afterwards, regardless of the raw
count.  (Clause 1 carries the not-in-cooldown proviso so that the two
clauses are not contradictory; this is the reading most favourable to the
claim.) -/
def C6_claim : Prop :=
  (∀ (inputs : List (ℚ × ℕ)) (i j : ℕ) (hi : i < inputs.length) (hj : j < inputs.length),
    timesNondecreasing inputs → i ≤ j →
    SENSITIVITY < (inputs.get ⟨i, hi⟩).2 →
    (inputs.get ⟨j, hj⟩).1 ≤ (inputs.get ⟨i, hi⟩).1 + MOTION_BUFFER_DURATION →
    ¬ (inputs.get ⟨j, hj⟩).1 < (runCycles (inputs.take j)).cooldown_end_time →
    (runCycles (inputs.take (j + 1))).motion_detected = true) ∧
  (∀ (inputs : List (ℚ × ℕ)) (j : ℕ) (hj : j < inputs.length),
    (inputs.get ⟨j, hj⟩).1 < (runCycles (inputs.take j)).cooldown_end_time →
    (runCycles (inputs.take (j + 1))).motion_detected = false)

/-- Buffer state after two `outputframe` calls on a freshly constructed
`CircularBufferOutput(max_duration = 10, frame_interval = 0.1)`: the first
unit captures a frame at timestamp 0, the second at timestamp 100 —
i.e. units arriving far slower than the assumed `frame_interval`. -/
def C4_buffer : CircularBufferOutput :=
  ((CircularBufferOutput.init pre_motion_recording_duration
      frame_interval).outputframe ⟨0, 0⟩ false (some 0)).outputframe
    ⟨1, 100⟩ false (some 100)

/-- Along a list of further cycles run from state `s`, every cycle time
stays at most `B`, lies within `MOTION_BUFFER_DURATION` below `B`, and is
outside the cooldown window in force when that cycle runs. -/
def holdsAfter (B : ℚ) : LoopState → List (ℚ × ℕ) → Prop
  | _, [] => True
  | s, (now, c) :: rest =>
      now ≤ B ∧ B ≤ now + MOTION_BUFFER_DURATION ∧ ¬ now < s.cooldown_end_time ∧
      holdsAfter B (cycle s c now) rest

/-! ## Helper lemmas -/

@[simp]
lemma debounceStep_recording (s : LoopState) (c : ℕ) (n : ℚ) :
    (debounceStep s c n).recording = s.recording := by
  unfold debounceStep; split_ifs <;> rfl

@[simp]
lemma debounceStep_motion_end_time (s : LoopState) (c : ℕ) (n : ℚ) :
    (debounceStep s c n).motion_end_time = s.motion_end_time := by
  unfold debounceStep; split_ifs <;> rfl

@[simp]
lemma debounceStep_cooldown_end_time (s : LoopState) (c : ℕ) (n : ℚ) :
    (debounceStep s c n).cooldown_end_time = s.cooldown_end_time := by
  unfold debounceStep; split_ifs <;> rfl

@[simp]
lemma startStep_motion_detected (s : LoopState) (n : ℚ) :
    (startStep s n).motion_detected = s.motion_detected := by
  unfold startStep; split_ifs <;> rfl

@[simp]
lemma startStep_motion_buffer_end_time (s : LoopState) (n : ℚ) :
    (startStep s n).motion_buffer_end_time = s.motion_buffer_end_time := by
  unfold startStep; split_ifs <;> rfl

@[simp]
lemma startStep_cooldown_end_time (s : LoopState) (n : ℚ) :
    (startStep s n).cooldown_end_time = s.cooldown_end_time := by
  unfold startStep; split_ifs <;> rfl

@[simp]
lemma stopStep_motion_detected (s : LoopState) (n : ℚ) :
    (stopStep s n).motion_detected = s.motion_detected := by
  unfold stopStep; split_ifs <;> rfl

@[simp]
lemma stopStep_motion_buffer_end_time (s : LoopState) (n : ℚ) :
    (stopStep s n).motion_buffer_end_time = s.motion_buffer_end_time := by
  unfold stopStep; split_ifs <;> rfl

/-- The debounced flag after a cycle is the debounced flag computed on
lines 120-133; the recording start/stop code does not touch it. -/
lemma cycle_motion_detected (s : LoopState) (c : ℕ) (n : ℚ) :
    (cycle s c n).motion_detected = (debounceStep s c n).motion_detected := by
  simp [cycle]

lemma cycle_motion_buffer_end_time (s : LoopState) (c : ℕ) (n : ℚ) :
    (cycle s c n).motion_buffer_end_time = (debounceStep s c n).motion_buffer_end_time := by
  simp [cycle]

/-- During cooldown the debounced signal is forced false (line 122-124),
and nothing later in the cycle can set it back. -/
lemma cooldown_forces_false (s : LoopState) (c : ℕ) (n : ℚ)
    (h : n < s.cooldown_end_time) :
    (cycle s c n).motion_detected = false := by
  rw [cycle_motion_detected]
  unfold debounceStep
  rw [if_pos h]

/-- A signed-16-bit cell stores an in-range integer unchanged. -/
lemma int16ofInt_eq_self {x : ℤ} (h1 : -2 ^ 15 ≤ x) (h2 : x < 2 ^ 15) :
    int16ofInt x = x := by
  unfold int16ofInt; omega

lemma pixelDelta_self (x : ℕ) : pixelDelta x x = 0 := by
  unfold pixelDelta
  rw [sub_self]
  norm_num [int16ofInt]

lemma changed_pixels_self (l : List ℕ) : changed_pixels l l = 0 := by
  unfold changed_pixels
  rw [List.countP_eq_zero]
  intro d hd
  rw [List.zipWith_same] at hd
  obtain ⟨x, _, rfl⟩ := List.mem_map.mp hd
  rw [pixelDelta_self]
  simp [PIXEL_DIFF_THRESHOLD]

/-! ## Claim theorems -/

/-- Claim C9: for all 8-bit intensities `a, b ∈ [0, 255]`, the per-pixel
difference of line 117 is computed in signed 16-bit intermediates wide
enough that the value compared against `PIXEL_DIFF_THRESHOLD` equals the
exact mathematical absolute difference `|a - b|`, with no wraparound. -/
theorem C9_exact_abs_diff (a b : ℕ) (ha : a ≤ 255) (hb : b ≤ 255) :
    pixelDelta a b = |(a : ℤ) - (b : ℤ)| := by
  have ha' : (a : ℤ) ≤ 255 := by exact_mod_cast ha
  have hb' : (b : ℤ) ≤ 255 := by exact_mod_cast hb
  have h0a : (0 : ℤ) ≤ (a : ℤ) := Int.natCast_nonneg a
  have h0b : (0 : ℤ) ≤ (b : ℤ) := Int.natCast_nonneg b
  have e1 : int16ofInt (a : ℤ) = (a : ℤ) := int16ofInt_eq_self (by omega) (by omega)
  have e2 : int16ofInt (b : ℤ) = (b : ℤ) := int16ofInt_eq_self (by omega) (by omega)
  have e3 : int16ofInt ((a : ℤ) - (b : ℤ)) = (a : ℤ) - (b : ℤ) :=
    int16ofInt_eq_self (by omega) (by omega)
  have habs0 : 0 ≤ |(a : ℤ) - (b : ℤ)| := abs_nonneg _
  have habs : |(a : ℤ) - (b : ℤ)| ≤ 255 := abs_le.mpr ⟨by omega, by omega⟩
  unfold pixelDelta
  rw [e1, e2, e3, int16ofInt_eq_self (by omega) (by omega)]

/-- Witness for C9 at the extreme pair `(255, 0)`. -/
theorem C9_witness : pixelDelta 255 0 = 255 := by
  have h := C9_exact_abs_diff 255 0 (by norm_num) (by norm_num)
  simpa using h

/-- Claim C8: on the first cycle of a session (no reference frame yet) the
differencer seeds `last_frame` with the incoming frame and the changed
count is zero, so no motion detection is emitted and no recording starts on
the first frame. -/
theorem C8_first_frame_seeds (frame : List ℕ) (now : ℚ) :
    changed_pixels frame (initState.last_frame.getD frame) = 0 ∧
    (fullCycle initState frame now).last_frame = some frame ∧
    (fullCycle initState frame now).motion_detected = false ∧
    (fullCycle initState frame now).recording = false := by
  have hcz : changed_pixels frame (initState.last_frame.getD frame) = 0 := by
    simp [initState, changed_pixels_self]
  refine ⟨hcz, rfl, ?_, ?_⟩
  · show (cycle initState (changed_pixels frame frame) now).motion_detected = false
    rw [changed_pixels_self, cycle_motion_detected]
    unfold debounceStep initState SENSITIVITY
    split_ifs <;> simp_all
  · show (cycle initState (changed_pixels frame frame) now).recording = false
    rw [changed_pixels_self]
    unfold cycle stopStep startStep debounceStep initState SENSITIVITY
    split_ifs <;> simp_all

/-- Claim C7: on every cycle with `now < cooldown_end_time` the debounced
signal is forced false regardless of the raw count; and on the cycle that
stops a recording, `cooldown_end_time` is set to `now + cooldown_duration`,
so every following cycle earlier than that bound has `motion_detected =
false` even if raw motion is present. -/
theorem C7_cooldown_suppresses (s : LoopState) (c c2 : ℕ) (n n2 : ℚ) :
    (n < s.cooldown_end_time → (cycle s c n).motion_detected = false) ∧
    (s.recording = true → s.motion_end_time < n →
      (cycle s c n).recording = false ∧
      (cycle s c n).cooldown_end_time = n + cooldown_duration ∧
      (n2 < n + cooldown_duration →
        (cycle (cycle s c n) c2 n2).motion_detected = false)) := by
  constructor
  · intro h
    exact cooldown_forces_false s c n h
  · intro hrec hstop
    have hstart : startStep (debounceStep s c n) n = debounceStep s c n := by
      unfold startStep
      rw [if_neg]
      simp [hrec]
    have hcond : (startStep (debounceStep s c n) n).recording = true ∧
        (startStep (debounceStep s c n) n).motion_end_time < n := by
      rw [hstart]; simp [hrec, hstop]
    have hcy : cycle s c n =
        { startStep (debounceStep s c n) n with
          recording := false, cooldown_end_time := n + cooldown_duration } := by
      unfold cycle stopStep
      rw [if_pos ⟨hcond.1, hcond.2⟩]
    refine ⟨by rw [hcy], by rw [hcy], ?_⟩
    intro hn2
    apply cooldown_forces_false
    rw [hcy]
    exact hn2

/-- Witness for C7: a recording stopped at time 1 forces the debounced
signal false at time 2 despite a raw count of 400. -/
theorem C7_witness :
    (cycle (cycle { initState with recording := true } 0 1) 400 2).motion_detected
      = false := by
  have h := (C7_cooldown_suppresses { initState with recording := true } 0 400 1 2).2
      rfl (by norm_num [initState])
  exact h.2.2 (by norm_num [cooldown_duration])

/-- Claim C1 fails on the code: on a cycle in the Recording state with the
debounced motion signal true (raw count 400 at time 3, `motion_end_time =
10`), `motion_end_time` is left at 10 instead of being extended to
`3 + record_duration_after_motion = 13` — line 142 runs only when a
recording starts, so sustained motion never pushes the close time
forward. -/
theorem C1_code_divergence :
    (cycle ⟨none, true, true, 10, 11, 0⟩ 400 3).motion_detected = true ∧
    (cycle ⟨none, true, true, 10, 11, 0⟩ 400 3).recording = true ∧
    (cycle ⟨none, true, true, 10, 11, 0⟩ 400 3).motion_end_time = 10 ∧
    (cycle ⟨none, true, true, 10, 11, 0⟩ 400 3).motion_end_time ≠
      3 + record_duration_after_motion := by
  refine ⟨?_, ?_, ?_, ?_⟩ <;>
    norm_num [cycle, debounceStep, startStep, stopStep, SENSITIVITY,
      MOTION_BUFFER_DURATION, record_duration_after_motion, cooldown_duration]

/-- Claim C2 fails on the code: starting from the initial state, with raw
motion present on every cycle (counts 400 > SENSITIVITY at times 0, 5, 11),
the recording opened at time 0 is closed on the cycle at time 11 — a cycle
on which the debounced motion signal is true — because line 145 tests only
`current_time > motion_end_time` and ignores the motion signal. -/
theorem C2_code_divergence :
    (runCycles [(0, 400), (5, 400)]).recording = true ∧
    (runCycles [(0, 400), (5, 400), (11, 400)]).motion_detected = true ∧
    (runCycles [(0, 400), (5, 400), (11, 400)]).recording = false ∧
    (runCycles [(0, 400), (5, 400), (11, 400)]).cooldown_end_time =
      11 + cooldown_duration := by
  refine ⟨?_, ?_, ?_, ?_⟩ <;>
    norm_num [runCycles, cycle, debounceStep, startStep, stopStep, initState,
      SENSITIVITY, MOTION_BUFFER_DURATION, record_duration_after_motion,
      cooldown_duration]

/-- If the debounced signal is on and the hold deadline is at least `B`,
then along any further cycles satisfying `holdsAfter B` the signal stays
on (triggers can only push the deadline forward, and no cycle time passes
`B`). -/
lemma holdsAfter_motion (B : ℚ) :
    ∀ (rest : List (ℚ × ℕ)) (s : LoopState),
      s.motion_detected = true → B ≤ s.motion_buffer_end_time →
      holdsAfter B s rest →
      (rest.foldl (fun s p => cycle s p.2 p.1) s).motion_detected = true := by
  intro rest
  induction rest with
  | nil => intro s h _ _; simpa using h
  | cons p t ih =>
    obtain ⟨now, c⟩ := p
    intro s hmd hB hh
    obtain ⟨h1, h2, h3, h4⟩ := hh
    rw [List.foldl_cons]
    have hnow : ¬ s.motion_buffer_end_time < now := not_lt.mpr (h1.trans hB)
    apply ih
    · rw [cycle_motion_detected]
      unfold debounceStep
      rw [if_neg h3]
      by_cases hc : SENSITIVITY < c
      · rw [if_pos hc]
      · rw [if_neg hc, if_neg hnow]
        exact hmd
    · rw [cycle_motion_buffer_end_time]
      unfold debounceStep
      rw [if_neg h3]
      by_cases hc : SENSITIVITY < c
      · rw [if_pos hc]
        exact h2
      · rw [if_neg hc, if_neg hnow]
        exact hB
    · exact h4

/-- Claim C6 as stated is false on the code: raw motion during a cooldown
cycle does not refresh the hold window (lines 122-124 skip the debounce
entirely), so the signal can be false within `MOTION_BUFFER_DURATION` of
the last raw-exceeding cycle even outside cooldown.  Concretely: motion at
t = 0 starts a recording; at t = 11 it stops (cooldown until 16); a raw
count of 400 at t = 15.5 is inside cooldown and sets nothing; at t = 16.2
(outside cooldown, within 1 s of t = 15.5) the signal is false. -/
theorem C6_counterexample : ¬ C6_claim := by
  intro h
  have hmd := h.1 [((0 : ℚ), (400 : ℕ)), (11, 0), (31 / 2, 400), (81 / 5, 0)] 2 3
      (by norm_num) (by norm_num)
      (by unfold timesNondecreasing
          norm_num [List.pairwise_cons])
      (by norm_num)
      (by norm_num [SENSITIVITY])
      (by norm_num [MOTION_BUFFER_DURATION])
      (by norm_num [runCycles, cycle, debounceStep, startStep, stopStep, initState,
          SENSITIVITY, MOTION_BUFFER_DURATION, record_duration_after_motion,
          cooldown_duration, List.take])
  have hfalse : (runCycles
      (([((0 : ℚ), (400 : ℕ)), (11, 0), (31 / 2, 400), (81 / 5, 0)]).take (3 + 1))).motion_detected
      = false := by
    norm_num [runCycles, cycle, debounceStep, startStep, stopStep, initState,
      SENSITIVITY, MOTION_BUFFER_DURATION, record_duration_after_motion,
      cooldown_duration, List.take]
  rw [hmd] at hfalse
  simp at hfalse

/-- Claim C6, amended: the debounced signal stays true for
`MOTION_BUFFER_DURATION` after the last raw-exceeding cycle that was
itself processed *outside* cooldown, provided every cycle in between is
also outside the cooldown window then in force and times do not decrease
past the window (the `holdsAfter` side conditions); and during any cycle
with `now < cooldown_end_time` the signal is false regardless of the raw
count.  A raw-exceeding cycle *inside* cooldown does not refresh the
hold. -/
theorem C6_amended_hold (pre : List (ℚ × ℕ)) (tN : ℚ) (tC : ℕ) (rest : List (ℚ × ℕ))
    (hx : SENSITIVITY < tC)
    (hcd : ¬ tN < (runCycles pre).cooldown_end_time)
    (hrest : holdsAfter (tN + MOTION_BUFFER_DURATION) (cycle (runCycles pre) tC tN) rest) :
    (runCycles (pre ++ (tN, tC) :: rest)).motion_detected = true ∧
    (∀ (s : LoopState) (c : ℕ) (n : ℚ), n < s.cooldown_end_time →
      (cycle s c n).motion_detected = false) := by
  constructor
  · have hrun : runCycles (pre ++ (tN, tC) :: rest) =
        rest.foldl (fun s p => cycle s p.2 p.1) (cycle (runCycles pre) tC tN) := by
      unfold runCycles
      rw [List.foldl_append, List.foldl_cons]
    rw [hrun]
    apply holdsAfter_motion _ rest _ ?_ ?_ hrest
    · rw [cycle_motion_detected]
      unfold debounceStep
      rw [if_neg hcd, if_pos hx]
    · rw [cycle_motion_buffer_end_time]
      unfold debounceStep
      rw [if_neg hcd, if_pos hx]
  · intro s c n hn
    exact cooldown_forces_false s c n hn

/-- Witness for the amended C6: a trigger at t = 0 keeps the signal true
at t = 0.5 with no further raw motion. -/
theorem C6_witness :
    (runCycles [((0 : ℚ), (400 : ℕ)), (1 / 2, 0)]).motion_detected = true := by
  have h := (C6_amended_hold [] 0 400 [(1 / 2, 0)]
      (by norm_num [SENSITIVITY])
      (by norm_num [runCycles, initState])
      (by norm_num [holdsAfter, cycle, debounceStep, startStep, stopStep, initState,
          SENSITIVITY, MOTION_BUFFER_DURATION, record_duration_after_motion,
          cooldown_duration, runCycles])).1
  simpa using h

/-- The enumerate loop leaves the accumulator untouched when no buffered
unit is a keyframe. -/
lemma lastKeyframeAux_of_all_false :
    ∀ (l : List (EncodedFrame × Bool)) (i acc : ℕ),
      (∀ p ∈ l, p.2 = false) → lastKeyframeAux i acc l = acc := by
  intro l
  induction l with
  | nil => intro i acc _; rfl
  | cons p t ih =>
    intro i acc h
    have hp := h p (List.mem_cons_self p t)
    show lastKeyframeAux (i + 1) (if p.2 then i else acc) t = acc
    rw [hp]
    exact ih (i + 1) acc (fun q hq => h q (List.mem_cons_of_mem p hq))

/-- The enumerate loop returns the offset of the most recent keyframe:
if position `j` holds a keyframe and every later position does not, the
result is `i + j` for any starting index `i` and any accumulator. -/
lemma lastKeyframeAux_of_last :
    ∀ (l : List (EncodedFrame × Bool)) (j : ℕ) (hj : j < l.length) (i acc : ℕ),
      (l.get ⟨j, hj⟩).2 = true →
      (∀ (j2 : ℕ) (h2 : j2 < l.length), j < j2 → (l.get ⟨j2, h2⟩).2 = false) →
      lastKeyframeAux i acc l = i + j := by
  intro l
  induction l with
  | nil => intro j hj; exact absurd hj (by simp)
  | cons p t ih =>
    intro j hj i acc hkey hlater
    cases j with
    | zero =>
      have hp : p.2 = true := hkey
      have ht : ∀ q ∈ t, q.2 = false := by
        intro q hq
        obtain ⟨⟨k, hk⟩, rfl⟩ := List.mem_iff_get.mp hq
        have hx := hlater (k + 1) (by simpa using Nat.succ_lt_succ hk) (Nat.succ_pos k)
        simpa using hx
      show lastKeyframeAux (i + 1) (if p.2 then i else acc) t = i + 0
      rw [hp]
      simp [lastKeyframeAux_of_all_false t (i + 1) i ht]
    | succ k =>
      have hk : k < t.length := by simpa using hj
      have hkey2 : (t.get ⟨k, hk⟩).2 = true := by simpa using hkey
      have hlater2 : ∀ (j2 : ℕ) (h2 : j2 < t.length), k < j2 →
          (t.get ⟨j2, h2⟩).2 = false := by
        intro j2 h2 hlt
        have hx := hlater (j2 + 1) (by simpa using Nat.succ_lt_succ h2)
          (Nat.succ_lt_succ hlt)
        simpa using hx
      show lastKeyframeAux (i + 1) (if p.2 then i else acc) t = i + (k + 1)
      rw [ih k hk (i + 1) (if p.2 then i else acc) hkey2 hlater2]
      omega

/-- Claim C3: `start_recording` writes to the newly opened sink exactly the
buffered units from the most recent keyframe through the end of the buffer,
in order — never a unit older than the most recent keyframe — and when no
buffered unit is a keyframe it writes the entire buffer from the
beginning. -/
theorem C3_flush_from_last_keyframe (b : CircularBufferOutput) :
    ((∀ p ∈ b.frames, p.2 = false) →
      b.start_recording.file = some (b.frames.map Prod.fst)) ∧
    (∀ (i : ℕ) (hi : i < b.frames.length),
      (b.frames.get ⟨i, hi⟩).2 = true →
      (∀ (j : ℕ) (hj : j < b.frames.length), i < j → (b.frames.get ⟨j, hj⟩).2 = false) →
      b.start_recording.file = some ((b.frames.drop i).map Prod.fst)) := by
  constructor
  · intro h
    show some ((b.frames.drop (lastKeyframeAux 0 0 b.frames)).map Prod.fst) = _
    rw [lastKeyframeAux_of_all_false b.frames 0 0 h, List.drop_zero]
  · intro i hi hkey hlater
    show some ((b.frames.drop (lastKeyframeAux 0 0 b.frames)).map Prod.fst) = _
    rw [lastKeyframeAux_of_last b.frames i hi 0 0 hkey hlater, Nat.zero_add]

/-- Witness for C3 on the spec's own scenario: buffer
`[(kf, t=0), (no, t=1), (kf, t=2), (no, t=3)]` flushes exactly the units
at t = 2 and t = 3. -/
theorem C3_witness :
    ({ (CircularBufferOutput.init 10 (1 / 10)) with
        frames := [(⟨0, 0⟩, true), (⟨1, 1⟩, false), (⟨2, 2⟩, true), (⟨3, 3⟩, false)]
      }).start_recording.file = some [⟨2, 2⟩, ⟨3, 3⟩] := by
  have h := (C3_flush_from_last_keyframe
      { (CircularBufferOutput.init 10 (1 / 10)) with
        frames := [(⟨0, 0⟩, true), (⟨1, 1⟩, false), (⟨2, 2⟩, true), (⟨3, 3⟩, false)] }).2
      2 (by norm_num) rfl
      (by intro j hj hgt
          simp only [List.length_cons, List.length_nil] at hj
          interval_cases j
          rfl)
  simpa using h

/-- Claim C4 fails on the code: the buffer is bounded by the fixed unit
count `max_frames = int(max_duration / frame_interval)` (line 44), not by
timestamps.  Pushing units with timestamps 0 and 100 into a buffer with
`max_duration = 10` evicts nothing: both are retained and their timestamp
span (100 s) exceeds the 10 s window. -/
theorem C4_counterexample :
    C4_buffer.frames = [(⟨0, 0⟩, false), (⟨1, 100⟩, false)] ∧
    (⟨1, 100⟩, false) ∈ C4_buffer.frames ∧
    (⟨0, 0⟩, false) ∈ C4_buffer.frames ∧
    C4_buffer.max_duration <
      ((⟨1, 100⟩ : EncodedFrame).ts - (⟨0, 0⟩ : EncodedFrame).ts) := by
  have hfr : C4_buffer.frames = [(⟨0, 0⟩, false), (⟨1, 100⟩, false)] := by
    unfold C4_buffer CircularBufferOutput.outputframe CircularBufferOutput.init
      pre_motion_recording_duration frame_interval
    norm_num
  have hmd : C4_buffer.max_duration = 10 := by
    unfold C4_buffer CircularBufferOutput.outputframe CircularBufferOutput.init
      pre_motion_recording_duration frame_interval
    norm_num
  refine ⟨hfr, by rw [hfr]; simp, by rw [hfr]; simp, by rw [hmd]; norm_num⟩

/-- Claim C4, amended: `outputframe` appends the new unit at the back and,
exactly when the unit count exceeds the fixed bound `max_frames =
int(max_duration / frame_interval)`, evicts one unit from the front; the
length bound `frames.length ≤ max_frames` is invariant and eviction never
reorders (the result is a suffix of the appended list), but timestamps are
never consulted, so the retained units' timestamp span is only bounded by
`max_duration` under the assumed fixed frame interval, not in general. -/
theorem C4_amended_count_bound (b : CircularBufferOutput) (f : EncodedFrame) (k : Bool)
    (t : Option ℚ) (h : b.frames.length ≤ b.max_frames) :
    (b.outputframe f k t).frames.length ≤ b.max_frames ∧
    (b.outputframe f k t).frames <:+ b.frames ++ [(f, k)] ∧
    (1 ≤ b.max_frames → (b.outputframe f k t).frames.getLast? = some (f, k)) := by
  have hlen : (b.frames ++ [(f, k)]).length = b.frames.length + 1 := by
    simp
  have hfr : (b.outputframe f k t).frames =
      (if b.max_frames < (b.frames ++ [(f, k)]).length then (b.frames ++ [(f, k)]).tail
       else b.frames ++ [(f, k)]) := rfl
  by_cases hc : b.max_frames < (b.frames ++ [(f, k)]).length
  · refine ⟨?_, ?_, ?_⟩
    · rw [hfr, if_pos hc, List.length_tail, hlen]
      omega
    · rw [hfr, if_pos hc]
      exact List.tail_suffix _
    · intro h1
      match hb : b.frames with
      | [] =>
        rw [hb] at hc
        simp at hc
        omega
      | x :: l =>
        rw [hfr, if_pos hc, hb, List.cons_append, List.tail_cons, List.getLast?_concat]
  · refine ⟨?_, ?_, fun _ => ?_⟩
    · rw [hfr, if_neg hc, hlen]
      rw [hlen] at hc
      omega
    · rw [hfr, if_neg hc]
    · rw [hfr, if_neg hc, List.getLast?_concat]

/-- Witness for the amended C4 at a concrete push into an empty buffer. -/
theorem C4_witness :
    ((CircularBufferOutput.init 1 1).outputframe ⟨5, 0⟩ true none).frames.getLast?
      = some (⟨5, 0⟩, true) := by
  exact (C4_amended_count_bound (CircularBufferOutput.init 1 1) ⟨5, 0⟩ true none
      (by norm_num [CircularBufferOutput.init])).2.2
    (by norm_num [CircularBufferOutput.init])

/-- Closed files stay closed under any further sequence of `outputframe`
calls: the file component remains `none` and the recording flag stays
false. -/
lemma pushAll_closed :
    ∀ (L : List (EncodedFrame × Bool × Option ℚ)) (b : CircularBufferOutput),
      b.file = none → b.recording = false →
      (pushAll b L).file = none ∧ (pushAll b L).recording = false := by
  intro L
  induction L with
  | nil => intro b h1 h2; exact ⟨h1, h2⟩
  | cons u t ih =>
    intro b h1 h2
    show (pushAll (b.outputframe u.1 u.2.1 u.2.2) t).file = none ∧
      (pushAll (b.outputframe u.1 u.2.1 u.2.2) t).recording = false
    apply ih
    · show (if b.recording then _ else b.file) = none
      rw [h2, if_neg (by simp)]
      exact h1
    · exact h2

/-- Claim C10: `outputframe` updates the buffer (append plus the count
eviction rule) independently of the recording flag and file handle; it
appends the unit's payload to the file exactly when `recording` is true
and a file is open; and after `stop_recording` closes the file, any
further sequence of `outputframe` calls leaves the file closed — only the
buffer changes. -/
theorem C10_outputframe_effect (b : CircularBufferOutput) (f : EncodedFrame) (k : Bool)
    (t : Option ℚ) (r : Bool) (w : Option (List EncodedFrame))
    (L : List (EncodedFrame × Bool × Option ℚ)) :
    ((b.outputframe f k t).frames =
      ({ b with recording := r, file := w }.outputframe f k t).frames) ∧
    ((b.outputframe f k t).frames =
      if b.max_frames < (b.frames ++ [(f, k)]).length then (b.frames ++ [(f, k)]).tail
      else b.frames ++ [(f, k)]) ∧
    (∀ c, b.recording = true → b.file = some c →
      (b.outputframe f k t).file = some (c ++ [f])) ∧
    (b.recording = false ∨ b.file = none → (b.outputframe f k t).file = b.file) ∧
    (pushAll b.stop_recording L).file = none ∧
    (pushAll b.stop_recording L).recording = false := by
  refine ⟨rfl, rfl, ?_, ?_, ?_, ?_⟩
  · intro c hr hf
    show (if b.recording then _ else b.file) = some (c ++ [f])
    rw [hr, if_pos rfl, hf]
  · intro hcase
    show (if b.recording then _ else b.file) = b.file
    rcases hcase with hr | hf
    · rw [hr, if_neg (by simp)]
    · match hb : b.recording with
      | false => rw [if_neg (by simp)]
      | true => rw [if_pos rfl, hf]
  · exact (pushAll_closed L b.stop_recording rfl rfl).1
  · exact (pushAll_closed L b.stop_recording rfl rfl).2

/-- Witness for C10: while recording with an open (empty) file, one
`outputframe` call writes the unit's payload to the file. -/
theorem C10_witness :
    (({ (CircularBufferOutput.init 1 1) with recording := true, file := some [] }).outputframe
      ⟨7, 0⟩ true none).file = some [⟨7, 0⟩] := by
  have h := (C10_outputframe_effect
      { (CircularBufferOutput.init 1 1) with recording := true, file := some [] }
      ⟨7, 0⟩ true none false none []).2.2.1 [] rfl rfl
  simpa using h

/-- Claim C5 fails on the code: when motion first triggers at time 0 (raw
count 400) and opening the sink fails, the loop raises out of the cycle
with `recording` already set to true (line 137 precedes the `open` of
line 141) — the controller does not remain in Idle, and since no handler
catches the error (line 160 catches only `KeyboardInterrupt`), motion is
not evaluated on the next cycle. -/
theorem C5_counterexample :
    cycleE true initState 400 0 =
      Except.error
        { initState with
          motion_detected := true
          motion_buffer_end_time := 1
          recording := true } ∧
    ({ initState with
       motion_detected := true
       motion_buffer_end_time := 1
       recording := true }).recording = true := by
  constructor
  · norm_num [cycleE, debounceStep, initState, SENSITIVITY, MOTION_BUFFER_DURATION]
  · rfl

/-- Claim C5, amended: whenever the debounced signal would start a
recording (motion detected, not yet recording) and the sink open fails,
the cycle terminates exceptionally with `recording = true` already set and
`motion_end_time` untouched — the transition is left half-taken and the
loop does not continue to the next cycle. -/
theorem C5_amended_open_failure (s : LoopState) (c : ℕ) (n : ℚ)
    (hmd : (debounceStep s c n).motion_detected = true)
    (hrec : s.recording = false) :
    cycleE true s c n = Except.error { debounceStep s c n with recording := true } ∧
    ({ debounceStep s c n with recording := true }).recording = true ∧
    ({ debounceStep s c n with recording := true }).motion_end_time
      = s.motion_end_time := by
  have h1 : (debounceStep s c n).recording = false := by
    rw [debounceStep_recording]; exact hrec
  refine ⟨?_, rfl, debounceStep_motion_end_time s c n⟩
  show (if (debounceStep s c n).motion_detected ∧ (debounceStep s c n).recording = false
      then _ else _) = _
  rw [if_pos ⟨hmd, h1⟩, if_pos rfl]

/-- Witness for the amended C5 at time 1 from the initial state. -/
theorem C5_witness :
    cycleE true initState 400 1 =
      Except.error { debounceStep initState 400 1 with recording := true } :=
  (C5_amended_open_failure initState 400 1
    (by norm_num [debounceStep, initState, SENSITIVITY]) rfl).1

end MotionRecording

